import Mathlib

/-!
Verification of the voice-dictation core against its specification.

The development shallowly embeds the three core components of the source:
`core/config_manager.py` (a path-addressed JSON configuration store),
`core/hotkeys.py` (a per-key press/release state machine), and
`core/recognizer.py` (a lazily loaded speech-recognition engine that
forwards decode parameters to an inference backend).

Python JSON values are modelled by the inductive type `JValue`; Python
dicts are insertion-ordered association lists, which `lookupKey` and
`updateKey` mirror (lookup finds the first matching key, update rewrites
an existing key in place and appends a fresh one).  Numbers are modelled
as rationals: the configuration only stores and forwards them opaquely,
so no floating-point behaviour is relevant to the claims.
-/

set_option autoImplicit false

namespace VoiceDictation

/-- A JSON value, as produced by `json.load` in `config_manager.py`. -/
inductive JValue where
  | null
  | bool (b : Bool)
  | num (q : Rat)
  | str (s : String)
  | arr (items : List JValue)
  | obj (fields : List (String × JValue))

/-- Python `value is None`. -/
def JValue.isNull : JValue → Bool
  | .null => true
  | _ => false

/-- Python dict lookup `d[key]` / `key in d` on an insertion-ordered dict. -/
def lookupKey : List (String × JValue) → String → Option JValue
  | [], _ => none
  | (k, v) :: rest, key => if k = key then some v else lookupKey rest key

/-- Python dict assignment `d[key] = v`: replaces the value at an existing
key in place, otherwise appends the new binding at the end. -/
def updateKey : List (String × JValue) → String → JValue → List (String × JValue)
  | [], key, v => [(key, v)]
  | (k, w) :: rest, key, v =>
      if k = key then (k, v) :: rest else (k, w) :: updateKey rest key v

/-- Python dict deletion as done by `dict.pop(key, default)`
(`config_manager.py` line 85): removes the first binding for `key`. -/
def removeKey : List (String × JValue) → String → List (String × JValue)
  | [], _ => []
  | (k, w) :: rest, key =>
      if k = key then rest else (k, w) :: removeKey rest key

/-- `ConfigManager.get` (`config_manager.py` lines 100-114): walks the tree
key by key; any intermediate that is not a dict, or any missing key, makes
the walk return the caller-supplied default.  With no keys the walk body
never runs and the whole tree is returned. -/
def configGet : JValue → List String → JValue → JValue
  | value, [], _ => value
  | JValue.obj fields, key :: rest, dflt =>
      match lookupKey fields key with
      | some v => configGet v rest dflt
      | none => dflt
  | _, _ :: _, dflt => dflt

/-- The traversal loop of `ConfigManager.set` (`config_manager.py` lines
127-135): for each intermediate key, inserts an empty dict when the key is
missing and descends; the final key is assigned in the last dict reached.
Any step whose current node is not a dict raises a `TypeError` in Python,
modelled here as `none` (the partial in-place mutation Python performs
before raising is not modelled; the claims quantify only over successful
calls). -/
def configSetGo : JValue → List String → JValue → Option JValue
  | JValue.obj fields, [key], v => some (JValue.obj (updateKey fields key v))
  | JValue.obj fields, key :: rest, v =>
      let child := match lookupKey fields key with
        | some c => c
        | none => JValue.obj []
      match configSetGo child rest v with
      | some child2 => some (JValue.obj (updateKey fields key child2))
      | none => none
  | _, _, _ => none

/-- Error outcomes of `ConfigManager.set`. -/
inductive SetErr where
  | invalidArgument
  | typeError
  deriving DecidableEq

/-- `ConfigManager.set` (`config_manager.py` lines 116-135): fewer than one
key plus a value raises `ValueError` (modelled as `invalidArgument`);
a non-dict node met along the path raises `TypeError`. -/
def configSet (t : JValue) (keys : List String) (v : JValue) : Except SetErr JValue :=
  if keys = [] then .error .invalidArgument
  else
    match configSetGo t keys v with
    | some t2 => .ok t2
    | none => .error .typeError

/-- The path exists in the tree: every step goes through a dict that has
the key.  This is exactly the condition under which the loop of
`ConfigManager.get` reaches the end without returning the default. -/
def pathPresent : JValue → List String → Bool
  | _, [] => true
  | JValue.obj fields, key :: rest =>
      (match lookupKey fields key with
       | some v => pathPresent v rest
       | none => false)
  | _, _ :: _ => false

/-- Every node the `set` traversal actually visits is a dict (missing
intermediate keys are allowed: the traversal creates empty dicts there).
This is exactly the condition under which `ConfigManager.set` does not
raise `TypeError`. -/
def canSet : JValue → List String → Bool
  | JValue.obj _, [_] => true
  | JValue.obj fields, key :: rest =>
      (match lookupKey fields key with
       | some c => canSet c rest
       | none => true)
  | _, _ => false

theorem lookupKey_updateKey (fields : List (String × JValue)) (key : String) (v : JValue) :
    lookupKey (updateKey fields key v) key = some v := by
  induction fields with
  | nil => simp [updateKey, lookupKey]
  | cons p rest ih =>
      obtain ⟨k, w⟩ := p
      by_cases hk : k = key
      · simp [updateKey, lookupKey, hk]
      · simp [updateKey, lookupKey, hk, ih]

theorem canSet_empty_obj (rest : List String) (h : rest ≠ []) :
    canSet (JValue.obj []) rest = true := by
  match rest with
  | [] => exact absurd rfl h
  | [k] => rfl
  | k1 :: k2 :: ks => simp [canSet, lookupKey]

theorem configSetGo_roundtrip (keys : List String) :
    ∀ (t v dflt : JValue), keys ≠ [] → canSet t keys = true →
      ∃ t2, configSetGo t keys v = some t2 ∧ configGet t2 keys dflt = v := by
  induction keys with
  | nil => intro t v dflt h; exact absurd rfl h
  | cons key rest ih =>
      intro t v dflt _ hcan
      match t with
      | JValue.null | JValue.bool _ | JValue.num _ | JValue.str _ | JValue.arr _ =>
          cases rest <;> simp [canSet] at hcan
      | JValue.obj fields =>
          match rest with
          | [] =>
              refine ⟨JValue.obj (updateKey fields key v), rfl, ?_⟩
              simp [configGet, lookupKey_updateKey]
          | key2 :: ks =>
              have hrestne : key2 :: ks ≠ [] := by simp
              have hchild : canSet
                  (match lookupKey fields key with
                   | some c => c
                   | none => JValue.obj []) (key2 :: ks) = true := by
                cases hl : lookupKey fields key with
                | some c =>
                    have := hcan
                    simp [canSet, hl] at this
                    simpa [hl] using this
                | none => simpa [hl] using canSet_empty_obj (key2 :: ks) hrestne
              obtain ⟨t2, hset, hget⟩ :=
                ih (match lookupKey fields key with
                    | some c => c
                    | none => JValue.obj []) v dflt hrestne hchild
              refine ⟨JValue.obj (updateKey fields key t2), ?_, ?_⟩
              · simp only [configSetGo]
                rw [hset]
              · simp [configGet, lookupKey_updateKey, hget]

/-- C2: for every non-empty path whose traversal meets only dicts or
missing keys (missing intermediates are created as fresh empty dicts),
`set` succeeds and a subsequent `get` on the same path returns the set
value, whatever default the `get` caller supplies. -/
theorem set_get_roundtrip (t v dflt : JValue) (keys : List String)
    (hne : keys ≠ []) (hcan : canSet t keys = true) :
    ∃ t2, configSet t keys v = .ok t2 ∧ configGet t2 keys dflt = v := by
  obtain ⟨t2, hset, hget⟩ := configSetGo_roundtrip keys t v dflt hne hcan
  refine ⟨t2, ?_, hget⟩
  simp [configSet, hne, hset]

/-- Witness for C2 at a concrete input: setting
`widget.position.x := 100` in a one-level tree creates the missing
intermediate dicts and reads back `100`. -/
theorem set_get_roundtrip_witness :
    ∃ t2, configSet (JValue.obj [("widget", JValue.obj [])])
        ["widget", "position", "x"] (JValue.num 100) = .ok t2 ∧
      configGet t2 ["widget", "position", "x"] JValue.null = JValue.num 100 :=
  set_get_roundtrip (JValue.obj [("widget", JValue.obj [])]) (JValue.num 100)
    JValue.null ["widget", "position", "x"] (by simp) (by rfl)

/-- C5: whenever the path is not fully present in the tree (an
intermediate node is not a dict, or a key is missing), `get` returns the
caller-supplied default.  `configGet` is a total function, so the call
never raises. -/
theorem get_default_of_missing (t dflt : JValue) (keys : List String)
    (h : pathPresent t keys = false) : configGet t keys dflt = dflt := by
  induction keys generalizing t with
  | nil => simp [pathPresent] at h
  | cons key rest ih =>
      match t with
      | JValue.null | JValue.bool _ | JValue.num _ | JValue.str _ | JValue.arr _ =>
          rfl
      | JValue.obj fields =>
          cases hl : lookupKey fields key with
          | some v =>
              have hv : pathPresent v rest = false := by
                have := h
                simp [pathPresent, hl] at this
                exact this
              simp [configGet, hl, ih v hv]
          | none => simp [configGet, hl]

/-- Witness for C5 at a concrete input: a missing key under an existing
section yields the default. -/
theorem get_default_of_missing_witness :
    configGet (JValue.obj [("widget", JValue.obj [("size", JValue.num 150)])])
      ["widget", "nope"] (JValue.str "fallback") = JValue.str "fallback" :=
  get_default_of_missing
    (JValue.obj [("widget", JValue.obj [("size", JValue.num 150)])])
    (JValue.str "fallback") ["widget", "nope"] (by rfl)

/-- C10: `get` called with zero path segments returns the whole in-memory
tree, never the supplied default: the loop body of `ConfigManager.get`
never runs, so the initial `value = self._config` is returned as is. -/
theorem get_no_keys_returns_tree (t dflt : JValue) :
    configGet t [] dflt = t := by
  cases t <;> rfl

/-! ## Defaults and migration (`config_manager.py` lines 15-98) -/

/-- `CONFIG_VERSION` (`config_manager.py` line 15). -/
def CONFIG_VERSION : Rat := 2

/-- `DEFAULT_CONFIG` (`config_manager.py` lines 17-46), transcribed field
by field.  Fractional literals are the exact rationals the source writes
as decimals. -/
def DEFAULT_CONFIG : JValue :=
  JValue.obj [
    ("version", JValue.num CONFIG_VERSION),
    ("widget", JValue.obj [
      ("position", JValue.obj [("x", JValue.null), ("y", JValue.null)]),
      ("size", JValue.num 150),
      ("hide_in_fullscreen", JValue.bool true)]),
    ("recognition", JValue.obj [
      ("hotkey", JValue.str "f9"),
      ("model", JValue.str "large-v3-turbo"),
      ("device", JValue.str "cuda"),
      ("compute_type", JValue.str "float16"),
      ("language", JValue.str "auto"),
      ("beam_size", JValue.num 5),
      ("temperature", JValue.num (3/10)),
      ("condition_on_previous_text", JValue.bool false),
      ("compression_ratio_threshold", JValue.num (12/5)),
      ("log_prob_threshold", JValue.num (-1)),
      ("no_speech_threshold", JValue.num (3/5)),
      ("repetition_penalty", JValue.num (6/5)),
      ("no_repeat_ngram_size", JValue.num 3),
      ("suppress_tokens", JValue.arr [JValue.num (-1)]),
      ("hallucination_silence_threshold", JValue.num 2)]),
    ("system", JValue.obj [
      ("autostart", JValue.bool false),
      ("start_minimized", JValue.bool false)])]

/-- `ConfigManager._migrate` (`config_manager.py` lines 81-98).  When
`version` is absent, the legacy scalars are taken with
`pop("window_x", None)` / `pop("window_y", None)` — so a key stored with
JSON `null` is indistinguishable from a missing key — a fresh copy of the
defaults is built, and the position is injected only when both recovered
values are not `None`.  The `save()` and logging side effects are outside
the returned tree.  A non-dict root is not modelled (`json.load` of a
config object always yields a dict here). -/
def migrate (t : JValue) : JValue :=
  match t with
  | JValue.obj fields =>
      match lookupKey fields "version" with
      | some _ => t
      | none =>
          let oldX := (lookupKey fields "window_x").getD JValue.null
          let oldY := (lookupKey fields "window_y").getD JValue.null
          if !oldX.isNull && !oldY.isNull then
            ((configSetGo DEFAULT_CONFIG ["widget", "position", "x"] oldX).bind
              (fun c => configSetGo c ["widget", "position", "y"] oldY)).getD
              DEFAULT_CONFIG
          else
            DEFAULT_CONFIG
  | _ => t

/-- Counterexample to C3: the legacy tree
`{"window_x": null, "window_y": 3}` has both legacy keys present, yet
migration does not copy them into `widget.position` — `pop(..., None)`
maps the stored `null` to the missing-key sentinel, so `window_y = 3` is
discarded and the migrated position stays at the default `null`. -/
theorem migrate_counterexample :
    (lookupKey [("window_x", JValue.null), ("window_y", JValue.num 3)]
        "window_x").isSome = true ∧
    (lookupKey [("window_x", JValue.null), ("window_y", JValue.num 3)]
        "window_y").isSome = true ∧
    configGet (migrate (JValue.obj
        [("window_x", JValue.null), ("window_y", JValue.num 3)]))
        ["widget", "position", "y"] (JValue.str "absent") = JValue.null ∧
    JValue.null ≠ JValue.num 3 := by
  refine ⟨rfl, rfl, rfl, ?_⟩
  intro h
  exact JValue.noConfusion h

/-- The current default tree with only `widget.position` replaced by the
recovered legacy coordinates — the expected result of a migration that
recovers the position.  Spelled out literally (not via `migrate` or the
store operations) so that equality with it pins every field of the
migrated tree: `version = 2`, every other default intact, and no legacy
field surviving. -/
def defaultsWithPosition (x y : JValue) : JValue :=
  JValue.obj [
    ("version", JValue.num CONFIG_VERSION),
    ("widget", JValue.obj [
      ("position", JValue.obj [("x", x), ("y", y)]),
      ("size", JValue.num 150),
      ("hide_in_fullscreen", JValue.bool true)]),
    ("recognition", JValue.obj [
      ("hotkey", JValue.str "f9"),
      ("model", JValue.str "large-v3-turbo"),
      ("device", JValue.str "cuda"),
      ("compute_type", JValue.str "float16"),
      ("language", JValue.str "auto"),
      ("beam_size", JValue.num 5),
      ("temperature", JValue.num (3/10)),
      ("condition_on_previous_text", JValue.bool false),
      ("compression_ratio_threshold", JValue.num (12/5)),
      ("log_prob_threshold", JValue.num (-1)),
      ("no_speech_threshold", JValue.num (3/5)),
      ("repetition_penalty", JValue.num (6/5)),
      ("no_repeat_ngram_size", JValue.num 3),
      ("suppress_tokens", JValue.arr [JValue.num (-1)]),
      ("hallucination_silence_threshold", JValue.num 2)]),
    ("system", JValue.obj [
      ("autostart", JValue.bool false),
      ("start_minimized", JValue.bool false)])]

/-- C3 as amended: for every loaded tree lacking `version`, migration
rebuilds the tree from current defaults, the result has `version = 2`,
and in both branches the whole resulting tree is pinned — when both
`window_x` and `window_y` are present with non-null values the result is
exactly the default tree with only `widget.position` replaced by them
(so all other legacy fields are discarded and every other default kept),
and otherwise the result is exactly the default tree. -/
theorem migrate_of_no_version (fields : List (String × JValue))
    (hver : lookupKey fields "version" = none) :
    configGet (migrate (JValue.obj fields)) ["version"] JValue.null
        = JValue.num 2 ∧
    (∀ x y, lookupKey fields "window_x" = some x →
        lookupKey fields "window_y" = some y →
        x.isNull = false → y.isNull = false →
        migrate (JValue.obj fields) = defaultsWithPosition x y) ∧
    (((lookupKey fields "window_x").getD JValue.null).isNull = true ∨
        ((lookupKey fields "window_y").getD JValue.null).isNull = true →
      migrate (JValue.obj fields) = DEFAULT_CONFIG) := by
  refine ⟨?_, ?_, ?_⟩
  · cases hx : lookupKey fields "window_x" <;>
    cases hy : lookupKey fields "window_y" <;>
    · simp only [migrate, hver, hx, hy, Option.getD]
      split <;> rfl
  · intro x y hx hy hxn hyn
    simp only [migrate, hver, hx, hy, Option.getD, hxn, hyn,
      Bool.not_false, Bool.and_self, if_pos]
    cases x <;> cases y <;> simp_all [JValue.isNull] <;> rfl
  · intro hnull
    simp only [migrate, hver]
    rcases hnull with hn | hn <;>
    · rw [if_neg]
      simp only [hn, Bool.not_true, Bool.false_and, Bool.and_false]
      exact Bool.false_ne_true

/-- Witness for the amended C3 at a concrete legacy tree
`{"window_x": 10, "window_y": 20, "legacy_junk": "old"}`: the migrated
tree is exactly the defaults with the recovered position — in particular
`legacy_junk` is gone and `version` reads `2`. -/
theorem migrate_of_no_version_witness :
    configGet (migrate (JValue.obj [("window_x", JValue.num 10),
        ("window_y", JValue.num 20), ("legacy_junk", JValue.str "old")]))
        ["version"] JValue.null = JValue.num 2 ∧
    migrate (JValue.obj [("window_x", JValue.num 10),
        ("window_y", JValue.num 20), ("legacy_junk", JValue.str "old")])
      = defaultsWithPosition (JValue.num 10) (JValue.num 20) := by
  have h := migrate_of_no_version
    [("window_x", JValue.num 10), ("window_y", JValue.num 20),
     ("legacy_junk", JValue.str "old")] rfl
  exact ⟨h.1, h.2.1 (JValue.num 10) (JValue.num 20) rfl rfl rfl rfl⟩

/-! ## Hotkey state machine (`core/hotkeys.py`) -/

/-- One entry of `HotkeyManager._callbacks` (`hotkeys.py` lines 36-41):
whether a press callback was supplied, whether a release callback was
supplied, and the debouncing latch `pressed`. -/
structure Binding where
  hasPress : Bool
  hasRelease : Bool
  pressed : Bool
  deriving DecidableEq

/-- The event type field of a `keyboard` library event. -/
inductive EventType where
  | down
  | up
  deriving DecidableEq

/-- A raw OS key event as delivered to `HotkeyManager._on_key_event`. -/
structure KeyEvent where
  name : String
  eventType : EventType

/-- Callback invocations observable from `_on_key_event`. -/
inductive KeyAction where
  | press (key : String)
  | release (key : String)
  deriving DecidableEq

/-- Python `str.lower()` as applied to key identifiers, modelled over the
character list (`String.toLower` in core is well-founded recursion, which
the kernel cannot evaluate; key identifiers are ASCII, where the two
agree). -/
def lowerStr (s : String) : String := String.mk (s.data.map Char.toLower)

/-- Lookup in the `_callbacks` dict (keys stored lower-cased by
`register`). -/
def lookupBinding : List (String × Binding) → String → Option Binding
  | [], _ => none
  | (k, b) :: rest, key => if k = key then some b else lookupBinding rest key

/-- In-place mutation of one binding in the `_callbacks` dict. -/
def updateBinding : List (String × Binding) → String → Binding → List (String × Binding)
  | [], _, _ => []
  | (k, b) :: rest, key, b2 =>
      if k = key then (k, b2) :: rest else (k, b) :: updateBinding rest key b2

/-- `HotkeyManager._on_key_event` (`hotkeys.py` lines 77-98): the event
name is lower-cased; an unknown key does nothing; a `down` event fires the
press callback only when the latch is clear and sets it; an `up` event
fires the release callback only when the latch is set and clears it.
Returns the updated callback table and the callbacks invoked (in order). -/
def onKeyEvent (cbs : List (String × Binding)) (ev : KeyEvent) :
    List (String × Binding) × List KeyAction :=
  let keyName := (lowerStr ev.name)
  match lookupBinding cbs keyName with
  | none => (cbs, [])
  | some b =>
      match ev.eventType with
      | .down =>
          if b.pressed = false then
            (updateBinding cbs keyName { b with pressed := true },
             if b.hasPress then [KeyAction.press keyName] else [])
          else (cbs, [])
      | .up =>
          if b.pressed = true then
            (updateBinding cbs keyName { b with pressed := false },
             if b.hasRelease then [KeyAction.release keyName] else [])
          else (cbs, [])

/-- Feeding a whole raw event sequence through `_on_key_event`,
accumulating the callbacks invoked. -/
def processEvents (cbs : List (String × Binding)) :
    List KeyEvent → List (String × Binding) × List KeyAction
  | [] => (cbs, [])
  | ev :: rest =>
      let r := onKeyEvent cbs ev
      let r2 := processEvents r.1 rest
      (r2.1, r.2 ++ r2.2)

theorem lookupBinding_updateBinding (cbs : List (String × Binding))
    (key : String) (b b2 : Binding) (h : lookupBinding cbs key = some b) :
    lookupBinding (updateBinding cbs key b2) key = some b2 := by
  induction cbs with
  | nil => simp [lookupBinding] at h
  | cons p rest ih =>
      obtain ⟨k, w⟩ := p
      by_cases hk : k = key
      · simp [updateBinding, lookupBinding, hk]
      · simp only [lookupBinding, if_neg hk] at h
        simp [updateBinding, lookupBinding, hk, ih h]

/-- C4: for every key registered with both callbacks and currently in the
released state, the raw sequence `down, down, down, up` invokes exactly
one press callback followed by exactly one release callback (the repeated
`down` events are absorbed by the latch); and a lone `up` while released
invokes no callback at all. -/
theorem hotkey_edge_triggered (cbs : List (String × Binding)) (k : String)
    (hreg : lookupBinding cbs (lowerStr k)
        = some { hasPress := true, hasRelease := true, pressed := false }) :
    (processEvents cbs [⟨k, .down⟩, ⟨k, .down⟩, ⟨k, .down⟩, ⟨k, .up⟩]).2
        = [KeyAction.press (lowerStr k), KeyAction.release (lowerStr k)] ∧
    (processEvents cbs [⟨k, .up⟩]).2 = [] := by
  have h1 : onKeyEvent cbs ⟨k, .down⟩
      = (updateBinding cbs (lowerStr k)
          { hasPress := true, hasRelease := true, pressed := true },
         [KeyAction.press (lowerStr k)]) := by
    simp [onKeyEvent, hreg]
  have hreg2 : lookupBinding (updateBinding cbs (lowerStr k)
      { hasPress := true, hasRelease := true, pressed := true }) (lowerStr k)
      = some { hasPress := true, hasRelease := true, pressed := true } :=
    lookupBinding_updateBinding cbs (lowerStr k) _ _ hreg
  have h2 : onKeyEvent (updateBinding cbs (lowerStr k)
      { hasPress := true, hasRelease := true, pressed := true }) ⟨k, .down⟩
      = (updateBinding cbs (lowerStr k)
          { hasPress := true, hasRelease := true, pressed := true }, []) := by
    simp [onKeyEvent, hreg2]
  have h3 : onKeyEvent (updateBinding cbs (lowerStr k)
      { hasPress := true, hasRelease := true, pressed := true }) ⟨k, .up⟩
      = (updateBinding (updateBinding cbs (lowerStr k)
            { hasPress := true, hasRelease := true, pressed := true })
            (lowerStr k) { hasPress := true, hasRelease := true, pressed := false },
         [KeyAction.release (lowerStr k)]) := by
    simp [onKeyEvent, hreg2]
  have h4 : onKeyEvent cbs ⟨k, .up⟩ = (cbs, []) := by
    simp [onKeyEvent, hreg]
  constructor
  · simp [processEvents, h1, h2, h3]
  · simp [processEvents, h4]

/-- Witness for C4 at a concrete table: the key `f9` registered with both
callbacks and released. -/
theorem hotkey_edge_triggered_witness :
    (processEvents [("f9", { hasPress := true, hasRelease := true, pressed := false })]
        [⟨"f9", .down⟩, ⟨"f9", .down⟩, ⟨"f9", .down⟩, ⟨"f9", .up⟩]).2
        = [KeyAction.press (lowerStr "f9"), KeyAction.release (lowerStr "f9")] ∧
    (processEvents [("f9", { hasPress := true, hasRelease := true, pressed := false })]
        [⟨"f9", .up⟩]).2 = [] :=
  hotkey_edge_triggered
    [("f9", { hasPress := true, hasRelease := true, pressed := false })] "f9"
    (by decide)

/-! ## Dictionary prompt (`config_manager.py` lines 145-155) -/

/-- Python `str.splitlines()` over the character list (core string
splitting uses well-founded recursion that the kernel cannot evaluate).
The only divergence is a single trailing empty line for the empty string,
which the blank-line filter of `get_initial_prompt` discards anyway. -/
def splitLinesChars : List Char → List (List Char)
  | [] => [[]]
  | c :: rest =>
      if c = '\n' then [] :: splitLinesChars rest
      else
        match splitLinesChars rest with
        | line :: more => (c :: line) :: more
        | [] => [[c]]

/-- Python `str.strip()` over the character list. -/
def trimChars (cs : List Char) : List Char :=
  ((cs.dropWhile Char.isWhitespace).reverse.dropWhile Char.isWhitespace).reverse

/-- Python `", ".join(terms)`. -/
def joinCommaSpace : List String → String
  | [] => ""
  | [t] => t
  | t :: rest => t ++ ", " ++ joinCommaSpace rest

/-- `ConfigManager.get_initial_prompt` (`config_manager.py` lines
145-155): a missing dictionary file (or an `IOError` while reading it,
also caught there) yields the empty string; otherwise each line is
stripped, blank lines are dropped, and the terms are joined with a comma
and a space.  `dictFile = none` models the missing/unreadable file. -/
def getInitialPrompt (dictFile : Option String) : String :=
  match dictFile with
  | none => ""
  | some text =>
      let terms := ((splitLinesChars text.data).map trimChars).filter
        (fun l => !l.isEmpty)
      joinCommaSpace (terms.map String.mk)

/-! ## Recognition engine (`core/recognizer.py`)

The inference backend (`faster_whisper.WhisperModel`) is external to the
repository; it is modelled as a function parameter, and the keyword
arguments the engine hands to `WhisperModel.transcribe` are reified in
`TranscribeArgs`.  In that structure `some v` means the keyword was
explicitly passed with value `v`, and `none` means the engine did not pass
the keyword at all, leaving the backend to its own default. -/

/-- Audio samples (mono 16 kHz float buffer, passed through verbatim;
sample values are opaque to every claim, so they are abstracted to
integers). -/
def Audio := List Int

/-- The state of a `SpeechRecognizer` instance: the lifecycle flag and
backend handle, plus the decode settings captured from the config store
(`recognizer.py` lines 19-38).  `backendModel` records which artifact path
the `WhisperModel` currently held was constructed from. -/
structure RecognizerState where
  modelLoaded : Bool
  backendModel : Option String
  modelSize : JValue
  device : JValue
  computeType : JValue
  beamSize : JValue
  language : JValue
  temperature : JValue
  compressionRatioThreshold : JValue
  logProbThreshold : JValue
  noSpeechThreshold : JValue
  modelPath : Option String

/-- `PROJECT_ROOT / "models" / self._model_size` (`recognizer.py` line
38): the models root is fixed, so the path is determined by the model
name; a non-string name would make the Python path join raise, modelled as
`none`. -/
def modelPathFor : JValue → Option String
  | JValue.str s => some ("models/" ++ s)
  | _ => none

/-- `SpeechRecognizer.__init__` (`recognizer.py` lines 19-38): captures
the decode settings from the config tree with the defaults written in the
source; the model is not loaded. -/
def initRecognizer (tree : JValue) : RecognizerState :=
  let modelSize := configGet tree ["recognition", "model"]
    (JValue.str "large-v3-turbo")
  { modelLoaded := false
    backendModel := none
    modelSize := modelSize
    device := configGet tree ["recognition", "device"] (JValue.str "cuda")
    computeType := configGet tree ["recognition", "compute_type"]
      (JValue.str "float16")
    beamSize := configGet tree ["recognition", "beam_size"] (JValue.num 5)
    language := configGet tree ["recognition", "language"] (JValue.str "auto")
    temperature := configGet tree ["recognition", "temperature"]
      (JValue.num (3/10))
    compressionRatioThreshold := configGet tree
      ["recognition", "compression_ratio_threshold"] (JValue.num (12/5))
    logProbThreshold := configGet tree ["recognition", "log_prob_threshold"]
      (JValue.num (-1))
    noSpeechThreshold := configGet tree ["recognition", "no_speech_threshold"]
      (JValue.num (3/5))
    modelPath := modelPathFor modelSize }

/-- `SpeechRecognizer.load_model` (`recognizer.py` lines 40-67): a no-op
returning `True` when the model is already loaded; otherwise constructs
the backend from the current model path (`backendOk = false` models any
exception out of the `WhisperModel` constructor, including a missing model
directory) and either records it or reports failure, staying unloaded. -/
def loadModel (s : RecognizerState) (backendOk : Bool) : Bool × RecognizerState :=
  if s.modelLoaded then (true, s)
  else
    match s.modelPath, backendOk with
    | some p, true => (true, { s with modelLoaded := true, backendModel := some p })
    | _, _ => (false, s)

/-- Python `lang == 'auto'` where `lang` came from the config tree. -/
def isAutoLang : JValue → Bool
  | JValue.str s => s = "auto"
  | _ => false

/-- The language resolution of `recognize` (`recognizer.py` lines 94-95):
`lang = language or self._language` (Python `or`, so `None` and the empty
string both fall back to the configured language), then `'auto'` becomes
`None`, modelled as `JValue.null`. -/
def resolveLang (s : RecognizerState) (languageArg : Option String) : JValue :=
  let lang := match languageArg with
    | some l => if l = "" then s.language else JValue.str l
    | none => s.language
  if isAutoLang lang then JValue.null else lang

/-- The keyword arguments of a `WhisperModel.transcribe` call.  `some v`
is a keyword explicitly passed with value `v`; `none` means the keyword is
absent from the call, so the backend applies its own default. -/
structure TranscribeArgs where
  audio : Audio
  language : JValue
  vadFilter : Bool
  initialPrompt : String
  conditionOnPreviousText : Option Bool
  beamSize : Option JValue
  temperature : Option JValue
  compressionRatioThreshold : Option JValue
  logProbThreshold : Option JValue
  noSpeechThreshold : Option JValue
  repetitionPenalty : Option JValue
  noRepeatNgramSize : Option JValue
  suppressTokens : Option JValue
  hallucinationSilenceThreshold : Option JValue

/-- The `self._model.transcribe(...)` call shared verbatim by `recognize`
(`recognizer.py` lines 98-109) and `recognize_with_info` (lines 140-151):
the two call sites pass keyword-for-keyword identical arguments.  Only the
five captured quality thresholds, the per-call derived prompt, the
resolved language, the VAD flag and `condition_on_previous_text=False` are
passed; `repetition_penalty`, `no_repeat_ngram_size`, `suppress_tokens`
and `hallucination_silence_threshold` do not appear in either call. -/
def transcribeArgsFor (s : RecognizerState) (dictFile : Option String)
    (audio : Audio) (languageArg : Option String) (vadFilter : Bool) :
    TranscribeArgs :=
  { audio := audio
    language := resolveLang s languageArg
    vadFilter := vadFilter
    initialPrompt := getInitialPrompt dictFile
    conditionOnPreviousText := some false
    beamSize := some s.beamSize
    temperature := some s.temperature
    compressionRatioThreshold := some s.compressionRatioThreshold
    logProbThreshold := some s.logProbThreshold
    noSpeechThreshold := some s.noSpeechThreshold
    repetitionPenalty := none
    noRepeatNgramSize := none
    suppressTokens := none
    hallucinationSilenceThreshold := none }

/-- Failure outcomes of the recognition methods. -/
inductive RecError where
  | illegalState
  deriving DecidableEq

/-- Python `text.strip()`. -/
def trimStr (s : String) : String := String.mk (trimChars s.data)

/-- `SpeechRecognizer.recognize` (`recognizer.py` lines 73-113): raises
`RuntimeError` while unloaded (modelled as `illegalState`); otherwise
re-derives the prompt from the dictionary file, builds the transcribe
call, joins the segment texts the backend emits and strips the result.
The second component is the post-call engine state (the method never
mutates it).  The returned `TranscribeArgs` records what was handed to the
backend. -/
def recognize (s : RecognizerState) (backend : TranscribeArgs → List String)
    (dictFile : Option String) (audio : Audio) (languageArg : Option String)
    (vadFilter : Bool) :
    Except RecError (String × TranscribeArgs) × RecognizerState :=
  if s.modelLoaded = false then (.error .illegalState, s)
  else
    let args := transcribeArgsFor s dictFile audio languageArg vadFilter
    (.ok (trimStr (String.join (backend args)), args), s)

/-- The `info` object returned by the backend, as consumed by
`recognize_with_info` (`recognizer.py` lines 155-158). -/
structure TranscribeInfo where
  language : String
  languageProbability : Rat

/-- `SpeechRecognizer.recognize_with_info` (`recognizer.py` lines
115-160): same guard and keyword-for-keyword the same transcribe call as
`recognize`, additionally surfacing the backend's language info. -/
def recognizeWithInfo (s : RecognizerState)
    (backend : TranscribeArgs → List String × TranscribeInfo)
    (dictFile : Option String) (audio : Audio) (languageArg : Option String)
    (vadFilter : Bool) :
    Except RecError ((String × TranscribeInfo) × TranscribeArgs) × RecognizerState :=
  if s.modelLoaded = false then (.error .illegalState, s)
  else
    let args := transcribeArgsFor s dictFile audio languageArg vadFilter
    let r := backend args
    (.ok ((trimStr (String.join r.1), r.2), args), s)

/-- `SpeechRecognizer.reload_settings` (`recognizer.py` lines 172-185):
re-reads every captured decode setting and the model path from the config
tree; the loaded backend (`_model`, `_model_loaded`) is untouched. -/
def reloadSettings (s : RecognizerState) (tree : JValue) : RecognizerState :=
  let modelSize := configGet tree ["recognition", "model"]
    (JValue.str "large-v3-turbo")
  { s with
    modelSize := modelSize
    device := configGet tree ["recognition", "device"] (JValue.str "cuda")
    computeType := configGet tree ["recognition", "compute_type"]
      (JValue.str "float16")
    beamSize := configGet tree ["recognition", "beam_size"] (JValue.num 5)
    language := configGet tree ["recognition", "language"] (JValue.str "auto")
    modelPath := modelPathFor modelSize
    temperature := configGet tree ["recognition", "temperature"]
      (JValue.num (3/10))
    compressionRatioThreshold := configGet tree
      ["recognition", "compression_ratio_threshold"] (JValue.num (12/5))
    logProbThreshold := configGet tree ["recognition", "log_prob_threshold"]
      (JValue.num (-1))
    noSpeechThreshold := configGet tree ["recognition", "no_speech_threshold"]
      (JValue.num (3/5)) }

/-- An engine constructed over the default configuration and successfully
loaded: the concrete instance used by several concrete theorems below. -/
def loadedDefault : RecognizerState :=
  (loadModel (initRecognizer DEFAULT_CONFIG) true).2

/-- C6: calling `recognize` or `recognize_with_info` on an unloaded engine
fails with the `IllegalState` condition (`RuntimeError` in the source) for
every audio input, language argument, VAD flag, dictionary state and
backend, and the engine state after the failed call is exactly the state
before it. -/
theorem recognize_unloaded_illegal (s : RecognizerState)
    (backend : TranscribeArgs → List String)
    (backend2 : TranscribeArgs → List String × TranscribeInfo)
    (dictFile : Option String) (audio : Audio) (languageArg : Option String)
    (vadFilter : Bool) (h : s.modelLoaded = false) :
    recognize s backend dictFile audio languageArg vadFilter
        = (.error .illegalState, s) ∧
    recognizeWithInfo s backend2 dictFile audio languageArg vadFilter
        = (.error .illegalState, s) := by
  constructor <;> simp [recognize, recognizeWithInfo, h]

/-- Witness for C6: a freshly constructed engine over the default config
is unloaded, and both methods fail on it leaving it unchanged. -/
theorem recognize_unloaded_illegal_witness :
    recognize (initRecognizer DEFAULT_CONFIG) (fun _ => []) none [] none true
        = (.error .illegalState, initRecognizer DEFAULT_CONFIG) ∧
    recognizeWithInfo (initRecognizer DEFAULT_CONFIG)
        (fun _ => ([], ⟨"ru", 1⟩)) none [] none true
        = (.error .illegalState, initRecognizer DEFAULT_CONFIG) :=
  recognize_unloaded_illegal (initRecognizer DEFAULT_CONFIG) (fun _ => [])
    (fun _ => ([], ⟨"ru", 1⟩)) none [] none true rfl

/-- Counterexample to C1: on a loaded engine over the default
configuration — whose config tree carries `repetition_penalty = 1.2`,
`no_repeat_ngram_size = 3`, `suppress_tokens = [-1]` and
`hallucination_silence_threshold = 2.0` — a `recognize` call passes none
of those four keywords to the backend (the engine never even reads them
from the config store). -/
theorem recognize_missing_params_counterexample :
    configGet DEFAULT_CONFIG ["recognition", "repetition_penalty"] JValue.null
        = JValue.num (6/5) ∧
    configGet DEFAULT_CONFIG ["recognition", "no_repeat_ngram_size"] JValue.null
        = JValue.num 3 ∧
    ∃ out, (recognize loadedDefault (fun _ => []) (some "Git\nDocker") []
        none true).1 = .ok out ∧
      out.2.repetitionPenalty = none ∧
      out.2.noRepeatNgramSize = none ∧
      out.2.suppressTokens = none ∧
      out.2.hallucinationSilenceThreshold = none :=
  ⟨rfl, rfl, _, rfl, rfl, rfl, rfl, rfl⟩

/-- C1 as amended: on every `recognize` call on a loaded engine, the
backend receives the captured beam size, temperature, compression-ratio
threshold, log-probability threshold and no-speech threshold, the derived
dictionary prompt, and `condition_on_previous_text = false`; the
configured repetition penalty, n-gram block size, suppressed-token set and
hallucination-silence threshold are never passed (the backend falls back
to its own defaults for them). -/
theorem recognize_passes_captured_params (s : RecognizerState)
    (backend : TranscribeArgs → List String) (dictFile : Option String)
    (audio : Audio) (languageArg : Option String) (vadFilter : Bool)
    (h : s.modelLoaded = true) :
    ∃ text args,
      (recognize s backend dictFile audio languageArg vadFilter).1
          = .ok (text, args) ∧
      args.beamSize = some s.beamSize ∧
      args.temperature = some s.temperature ∧
      args.compressionRatioThreshold = some s.compressionRatioThreshold ∧
      args.logProbThreshold = some s.logProbThreshold ∧
      args.noSpeechThreshold = some s.noSpeechThreshold ∧
      args.initialPrompt = getInitialPrompt dictFile ∧
      args.conditionOnPreviousText = some false ∧
      args.repetitionPenalty = none ∧
      args.noRepeatNgramSize = none ∧
      args.suppressTokens = none ∧
      args.hallucinationSilenceThreshold = none := by
  refine ⟨trimStr (String.join (backend
      (transcribeArgsFor s dictFile audio languageArg vadFilter))),
    transcribeArgsFor s dictFile audio languageArg vadFilter,
    ?_, rfl, rfl, rfl, rfl, rfl, rfl, rfl, rfl, rfl, rfl, rfl⟩
  simp [recognize, h]

/-- Witness for the amended C1 on a loaded default engine. -/
theorem recognize_passes_captured_params_witness :
    ∃ text args,
      (recognize loadedDefault (fun _ => []) (some "Git\nDocker") [] none
          true).1 = .ok (text, args) ∧
      args.conditionOnPreviousText = some false ∧
      args.beamSize = some loadedDefault.beamSize := by
  obtain ⟨text, args, hok, _, _, _, _, _, _, hcond, _⟩ :=
    recognize_passes_captured_params loadedDefault (fun _ => [])
      (some "Git\nDocker") [] none true rfl
  exact ⟨text, args, hok, hcond, by assumption⟩

/-- The default configuration with `recognition.model` switched to
`"small"` over the `set` operation of the store. -/
def treeSmallModel : JValue :=
  (configSetGo DEFAULT_CONFIG ["recognition", "model"]
    (JValue.str "small")).getD DEFAULT_CONFIG

/-- Counterexample to C7: on an engine already loaded with
`large-v3-turbo`, re-reading settings whose model name changed to `small`
updates the model path, but the next explicit `load()` is a short-circuit
no-op (`load_model` returns `True` immediately when `_model_loaded`), so
the backend still holds the old model — the new model does not take
effect at that `load()`. -/
theorem load_after_reload_counterexample :
    (reloadSettings loadedDefault treeSmallModel).modelPath
        = some "models/small" ∧
    loadModel (reloadSettings loadedDefault treeSmallModel) true
        = (true, reloadSettings loadedDefault treeSmallModel) ∧
    (loadModel (reloadSettings loadedDefault treeSmallModel) true).2.backendModel
        = some "models/large-v3-turbo" ∧
    some "models/large-v3-turbo" ≠ some "models/small" := by
  refine ⟨rfl, rfl, rfl, by decide⟩

/-- C7 as amended: `reloadSettings` re-reads every decode parameter and
the model path from the config store while leaving the loaded backend
untouched, so subsequent `recognize` calls use the new values without a
model reload; but `load()` on an already-loaded engine is a no-op
returning success, so a changed model name takes effect only through a
`load()` performed while the engine is unloaded. -/
theorem reload_settings_behaviour (s : RecognizerState) (tree : JValue)
    (backendOk : Bool) :
    (reloadSettings s tree).modelLoaded = s.modelLoaded ∧
    (reloadSettings s tree).backendModel = s.backendModel ∧
    (reloadSettings s tree).modelSize
        = configGet tree ["recognition", "model"] (JValue.str "large-v3-turbo") ∧
    (reloadSettings s tree).modelPath
        = modelPathFor (configGet tree ["recognition", "model"]
            (JValue.str "large-v3-turbo")) ∧
    (reloadSettings s tree).beamSize
        = configGet tree ["recognition", "beam_size"] (JValue.num 5) ∧
    (reloadSettings s tree).temperature
        = configGet tree ["recognition", "temperature"] (JValue.num (3/10)) ∧
    (reloadSettings s tree).compressionRatioThreshold
        = configGet tree ["recognition", "compression_ratio_threshold"]
            (JValue.num (12/5)) ∧
    (reloadSettings s tree).logProbThreshold
        = configGet tree ["recognition", "log_prob_threshold"]
            (JValue.num (-1)) ∧
    (reloadSettings s tree).noSpeechThreshold
        = configGet tree ["recognition", "no_speech_threshold"]
            (JValue.num (3/5)) ∧
    (s.modelLoaded = true → loadModel s backendOk = (true, s)) ∧
    (s.modelLoaded = false → backendOk = true →
      ∀ p, s.modelPath = some p →
        (loadModel s backendOk).2.backendModel = some p ∧
        (loadModel s backendOk).2.modelLoaded = true) := by
  refine ⟨rfl, rfl, rfl, rfl, rfl, rfl, rfl, rfl, rfl, ?_, ?_⟩
  · intro h
    simp [loadModel, h]
  · intro h hok p hp
    simp [loadModel, h, hok, hp]

/-- Witness for the amended C7: a loaded default engine keeps its backend
across a reload that switches the model name, and `load()` on it is a
no-op; a fresh unloaded engine over the switched tree does load the new
model. -/
theorem reload_settings_behaviour_witness :
    (reloadSettings loadedDefault treeSmallModel).backendModel
        = loadedDefault.backendModel ∧
    loadModel loadedDefault true = (true, loadedDefault) ∧
    (loadModel (initRecognizer treeSmallModel) true).2.backendModel
        = some "models/small" := by
  refine ⟨(reload_settings_behaviour loadedDefault treeSmallModel true).2.1,
    ((reload_settings_behaviour loadedDefault treeSmallModel true).2.2.2.2.2.2.2.2.2.1 rfl),
    ((reload_settings_behaviour (initRecognizer treeSmallModel) treeSmallModel
        true).2.2.2.2.2.2.2.2.2.2 rfl rfl "models/small" rfl).1⟩

/-- Counterexample to C9: two `recognize` calls on the same loaded engine
with identical audio and arguments, no `reloadSettings` in between, but a
dictionary resource that changed between the calls, pass different
`initial_prompt` values to the backend — `get_initial_prompt()` re-reads
the dictionary file inside every call. -/
theorem recognize_rereads_dictionary_counterexample :
    ∃ o1 o2,
      (recognize loadedDefault (fun _ => []) (some "Git\nDocker") [] none
          true).1 = .ok o1 ∧
      (recognize loadedDefault (fun _ => []) (some "Git\nDocker\nKubernetes")
          [] none true).1 = .ok o2 ∧
      o1.2.initialPrompt = "Git, Docker" ∧
      o2.2.initialPrompt = "Git, Docker, Kubernetes" ∧
      o1.2.initialPrompt ≠ o2.2.initialPrompt := by
  refine ⟨_, _, rfl, rfl, by decide, by decide, by decide⟩

/-- C9 as amended: the decode parameters passed on every `recognize` call
are exactly those captured in the engine state (set at construction or the
last explicit `reloadSettings` — the call takes no config-store input at
all, so changing the store between calls cannot affect them), but the
initial prompt is re-derived from the dictionary resource on every call:
two calls differing only in the dictionary contents pass identical decode
parameters and language, yet each carries the prompt of its own dictionary
snapshot. -/
theorem recognize_decode_inputs_stability (s : RecognizerState)
    (backend : TranscribeArgs → List String) (d d2 : Option String)
    (audio : Audio) (languageArg : Option String) (vadFilter : Bool)
    (h : s.modelLoaded = true) :
    ∀ o1 o2,
      (recognize s backend d audio languageArg vadFilter).1 = .ok o1 →
      (recognize s backend d2 audio languageArg vadFilter).1 = .ok o2 →
      o1.2.initialPrompt = getInitialPrompt d ∧
      o2.2.initialPrompt = getInitialPrompt d2 ∧
      o1.2.beamSize = some s.beamSize ∧
      o2.2.beamSize = some s.beamSize ∧
      o1.2.temperature = o2.2.temperature ∧
      o1.2.compressionRatioThreshold = o2.2.compressionRatioThreshold ∧
      o1.2.logProbThreshold = o2.2.logProbThreshold ∧
      o1.2.noSpeechThreshold = o2.2.noSpeechThreshold ∧
      o1.2.language = o2.2.language ∧
      o1.2.conditionOnPreviousText = o2.2.conditionOnPreviousText := by
  intro o1 o2 h1 h2
  simp [recognize, h] at h1 h2
  subst h1
  subst h2
  exact ⟨rfl, rfl, rfl, rfl, rfl, rfl, rfl, rfl, rfl, rfl⟩

/-- Witness for the amended C9 on a loaded default engine and two
dictionary snapshots. -/
theorem recognize_decode_inputs_stability_witness :
    ∃ o1 o2,
      (recognize loadedDefault (fun _ => []) (some "Git") [] none true).1
          = .ok o1 ∧
      (recognize loadedDefault (fun _ => []) (some "Docker") [] none true).1
          = .ok o2 ∧
      o1.2.beamSize = some loadedDefault.beamSize ∧
      o1.2.temperature = o2.2.temperature := by
  refine ⟨_, _, rfl, rfl, ?_, ?_⟩
  · exact (recognize_decode_inputs_stability loadedDefault (fun _ => [])
      (some "Git") (some "Docker") [] none true rfl _ _ rfl rfl).2.2.1
  · exact (recognize_decode_inputs_stability loadedDefault (fun _ => [])
      (some "Git") (some "Docker") [] none true rfl _ _ rfl rfl).2.2.2.2.1

/-! ## Persistence (`config_manager.py` lines 137-143) -/

/-- What `json.dump` may raise inside `ConfigManager.save`. -/
inductive SaveFailure where
  | ioFailure
  deriving DecidableEq

/-- `ConfigManager.save` (`config_manager.py` lines 137-143), as seen
across the store boundary.  The body wraps the dump in
`try/except IOError` and only prints on failure, so the caller-visible
outcome is always `.ok ()` (Python returns `None` and no exception
escapes); `writeOk = false` models the dump raising `IOError`.  The second
component is the in-memory tree after the call — `save` never touches it —
and the third the persisted file (left as it was on failure; mid-write
truncation by a crashed dump is outside every claim and not modelled). -/
def configSave (tree : JValue) (disk : Option JValue) (writeOk : Bool) :
    Except SaveFailure Unit × JValue × Option JValue :=
  (.ok (), tree, if writeOk then some tree else disk)

/-- Counterexample to C8: callers of `save` do not observe a
boolean/error result.  A failed write returns exactly the same
caller-visible outcome as a successful one — the plain `.ok ()` that
models Python returning `None` — so no failure indication crosses the
store boundary; the failure is only logged. -/
theorem save_result_counterexample :
    (configSave DEFAULT_CONFIG (some DEFAULT_CONFIG) false).1 = .ok () ∧
    (configSave DEFAULT_CONFIG (some DEFAULT_CONFIG) false).1
        = (configSave DEFAULT_CONFIG (some DEFAULT_CONFIG) true).1 :=
  ⟨rfl, rfl⟩

/-- C8 as amended: `save` never throws an I/O failure across the store
boundary and leaves the in-memory tree unchanged whether the write
succeeds or fails (so the process continues with the in-memory copy
intact); but callers observe no boolean/error result — the outcome is the
same `.ok ()` in both cases, failure being reported only on the log. -/
theorem save_never_throws (tree : JValue) (disk : Option JValue)
    (writeOk : Bool) :
    (configSave tree disk writeOk).1 = .ok () ∧
    (configSave tree disk writeOk).2.1 = tree ∧
    (writeOk = true → (configSave tree disk writeOk).2.2 = some tree) := by
  refine ⟨rfl, rfl, ?_⟩
  intro h
  simp [configSave, h]

/-- Witness for the amended C8 at a concrete tree and a failing write. -/
theorem save_never_throws_witness :
    (configSave DEFAULT_CONFIG none false).1 = .ok () ∧
    (configSave DEFAULT_CONFIG none true).2.2 = some DEFAULT_CONFIG :=
  ⟨(save_never_throws DEFAULT_CONFIG none false).1,
   (save_never_throws DEFAULT_CONFIG none true).2.2 rfl⟩

end VoiceDictation
